import Mathlib

/-!
Verification of the per-timestep field-update kernels of a 2D staggered-grid
incompressible Navier-Stokes solver with Boussinesq temperature coupling
(source: uvp.c).  Real values are embedded as rationals; a scalar field over
the extended domain is embedded as a total function on integer index pairs.
The kernels, which mutate arrays in place in C, are embedded as functions
returning the updated field, defined pointwise where the loop structure
permits (no kernel except the temperature sweep reads a cell it has already
written) and as an explicit sequential fold for the in-place temperature
sweep.
-/

namespace Uvp

/-- A scalar field over the extended index domain, embedded as a total
function on integer index pairs; the C code stores doubles in a
2D array indexed `[0..imax+1] x [0..jmax+1]`. -/
abbrev Field := ℤ → ℤ → ℚ

/-- The four axis-aligned neighbour directions used by the flag queries
(`LEFT`, `RIGHT`, `TOP`, `BOT` in the C code). -/
inductive Direction where
  | LEFT
  | RIGHT
  | TOP
  | BOT
deriving DecidableEq

/-- Modelled from the spec: the per-cell bitmask of helper.h (not under
src/) encodes whether the cell itself is fluid or obstacle and, for each of
the four axis-aligned neighbours, whether that neighbour is fluid or
obstacle; it is queried only through the predicates below. -/
structure CellFlag where
  selfFluid : Bool
  leftFluid : Bool
  rightFluid : Bool
  topFluid : Bool
  botFluid : Bool
deriving DecidableEq

/-- A cell-flag field over the extended index domain. -/
abbrev FlagField := ℤ → ℤ → CellFlag

/-- Modelled from the spec: predicate `isFluid` of helper.h. -/
def isFluid (c : CellFlag) : Bool := c.selfFluid

/-- Modelled from the spec: predicate `isObstacle` of helper.h (a cell is
either fluid or obstacle). -/
def isObstacle (c : CellFlag) : Bool := !c.selfFluid

/-- Modelled from the spec: predicate `isNeighbourFluid` of helper.h. -/
def isNeighbourFluid (c : CellFlag) (d : Direction) : Bool :=
  match d with
  | Direction.LEFT => c.leftFluid
  | Direction.RIGHT => c.rightFluid
  | Direction.TOP => c.topFluid
  | Direction.BOT => c.botFluid

/-- Modelled from the spec: predicate `isNeighbourObstacle` of helper.h
(the named neighbour is either fluid or obstacle). -/
def isNeighbourObstacle (c : CellFlag) (d : Direction) : Bool :=
  !(isNeighbourFluid c d)

/-! ## StencilOperators (uvp.c lines 117-205) -/

/-- `secondDerivativeDx`: central second difference along x. -/
def secondDerivativeDx (A : Field) (i j : ℤ) (h : ℚ) : ℚ :=
  (A (i - 1) j - 2 * A i j + A (i + 1) j) / (h * h)

/-- `secondDerivativeDy`: central second difference along y. -/
def secondDerivativeDy (A : Field) (i j : ℤ) (h : ℚ) : ℚ :=
  (A i (j - 1) - 2 * A i j + A i (j + 1)) / (h * h)

/-- `productDerivativeDx`: alpha-blended upwind flux difference of the
product AB along x. -/
def productDerivativeDx (A B : Field) (i j : ℤ) (h alpha : ℚ) : ℚ :=
  1 / h *
      ((A i j + A i (j + 1)) / 2 * (B i j + B (i + 1) j) / 2
        - (A (i - 1) j + A (i - 1) (j + 1)) / 2 * (B (i - 1) j + B i j) / 2)
    + alpha / h *
      (|A i j + A i (j + 1)| / 2 * (B i j - B (i + 1) j) / 2
        - |A (i - 1) j + A (i - 1) (j + 1)| / 2 * (B (i - 1) j - B i j) / 2)

/-- `productDerivativeDy`: alpha-blended upwind flux difference of the
product AB along y. -/
def productDerivativeDy (A B : Field) (i j : ℤ) (h alpha : ℚ) : ℚ :=
  1 / h *
      ((B i j + B (i + 1) j) / 2 * (A i j + A i (j + 1)) / 2
        - (B i (j - 1) + B (i + 1) (j - 1)) / 2 * (A i (j - 1) + A i j) / 2)
    + alpha / h *
      (|B i j + B (i + 1) j| / 2 * (A i j - A i (j + 1)) / 2
        - |B i (j - 1) + B (i + 1) (j - 1)| / 2 * (A i (j - 1) - A i j) / 2)

/-- `squareDerivativeDx`: alpha-blended upwind flux difference of AA
along x. -/
def squareDerivativeDx (A : Field) (i j : ℤ) (h alpha : ℚ) : ℚ :=
  1 / h *
      (((A i j + A (i + 1) j) / 2) ^ 2 - ((A (i - 1) j + A i j) / 2) ^ 2)
    + alpha / h *
      (|A i j + A (i + 1) j| / 2 * (A i j - A (i + 1) j) / 2
        - |A (i - 1) j + A i j| / 2 * (A (i - 1) j - A i j) / 2)

/-- `squareDerivativeDy`: alpha-blended upwind flux difference of AA
along y. -/
def squareDerivativeDy (A : Field) (i j : ℤ) (h alpha : ℚ) : ℚ :=
  1 / h *
      (((A i j + A i (j + 1)) / 2) ^ 2 - ((A i (j - 1) + A i j) / 2) ^ 2)
    + alpha / h *
      (|A i j + A i (j + 1)| / 2 * (A i j - A i (j + 1)) / 2
        - |A i (j - 1) + A i j| / 2 * (A i (j - 1) - A i j) / 2)

/-! ## MomentumKernel (uvp.c lines 31-115) -/

/-- `computeF` (uvp.c lines 85-99): the explicit momentum step for F. -/
def computeF (Re GX alpha beta dt dx dy : ℚ) (U V T : Field) (i j : ℤ) : ℚ :=
  U i j
    + dt *
      (1 / Re * (secondDerivativeDx U i j dx + secondDerivativeDy U i j dy)
        - squareDerivativeDx U i j dx alpha
        - productDerivativeDy U V i j dy alpha
        + (1 - beta * T i j) * GX)

/-- `computeG` (uvp.c lines 101-115): the explicit momentum step for G. -/
def computeG (Re GY alpha beta dt dx dy : ℚ) (U V T : Field) (i j : ℤ) : ℚ :=
  V i j
    + dt *
      (1 / Re * (secondDerivativeDx V i j dx + secondDerivativeDy V i j dy)
        - productDerivativeDx U V i j dx alpha
        - squareDerivativeDy V i j dy alpha
        + (1 - beta * T i j) * GY)

/-- The F component written by `calculate_fg` (uvp.c lines 31-83), rendered
pointwise: the boundary loop writes `F[0][j]` and `F[imax][j]` for
`j in [1,jmax]`; the interior loop writes `F[i][j]` for `i in [1,imax-1]`,
`j in [1,jmax]` (velocity copy at obstacle edges, `computeF` otherwise);
every other entry keeps its prior value.  The loops write disjoint cells and
read only U, V, T, Flags, so the pointwise rendering is exact. -/
def calculate_fg_F (Re GX alpha beta dt dx dy : ℚ) (imax jmax : ℕ)
    (U V F T : Field) (Flags : FlagField) : Field := fun i j =>
  if (i = 0 ∨ i = (imax : ℤ)) ∧ 1 ≤ j ∧ j ≤ (jmax : ℤ) then U i j
  else if 1 ≤ i ∧ i < (imax : ℤ) ∧ 1 ≤ j ∧ j ≤ (jmax : ℤ) then
    if isObstacle (Flags i j) = true
        ∨ isNeighbourObstacle (Flags i j) Direction.RIGHT = true then U i j
    else computeF Re GX alpha beta dt dx dy U V T i j
  else F i j

/-- The G component written by `calculate_fg` (uvp.c lines 31-83), rendered
pointwise: the boundary loop writes `G[i][0]` and `G[i][jmax]` for
`i in [1,imax]`; the interior loop writes `G[i][j]` for `i in [1,imax]`,
`j in [1,jmax-1]` (velocity copy at obstacle edges, `computeG` otherwise);
every other entry keeps its prior value. -/
def calculate_fg_G (Re GY alpha beta dt dx dy : ℚ) (imax jmax : ℕ)
    (U V G T : Field) (Flags : FlagField) : Field := fun i j =>
  if 1 ≤ i ∧ i ≤ (imax : ℤ) ∧ (j = 0 ∨ j = (jmax : ℤ)) then V i j
  else if 1 ≤ i ∧ i ≤ (imax : ℤ) ∧ 1 ≤ j ∧ j < (jmax : ℤ) then
    if isObstacle (Flags i j) = true
        ∨ isNeighbourObstacle (Flags i j) Direction.TOP = true then V i j
    else computeG Re GY alpha beta dt dx dy U V T i j
  else G i j

/-- `calculate_fg` (uvp.c lines 31-83): the pair of updated F and G
fields. -/
def calculate_fg (Re GX GY alpha beta dt dx dy : ℚ) (imax jmax : ℕ)
    (U V F G T : Field) (Flags : FlagField) : Field × Field :=
  (calculate_fg_F Re GX alpha beta dt dx dy imax jmax U V F T Flags,
   calculate_fg_G Re GY alpha beta dt dx dy imax jmax U V G T Flags)

/-! ## PressureRHSKernel (uvp.c lines 214-226) -/

/-- `calculate_rs` (uvp.c lines 214-226): for `i in [1,imax]`,
`j in [1,jmax]`, fluid cells get the divergence source; all other entries
keep their prior value. -/
def calculate_rs (dt dx dy : ℚ) (imax jmax : ℕ) (F G RS : Field)
    (Flags : FlagField) : Field := fun i j =>
  if 1 ≤ i ∧ i ≤ (imax : ℤ) ∧ 1 ≤ j ∧ j ≤ (jmax : ℤ)
      ∧ isFluid (Flags i j) = true then
    ((F i j - F (i - 1) j) / dx + (G i j - G i (j - 1)) / dy) / dt
  else RS i j

/-! ## VelocityCorrector (uvp.c lines 285-312) -/

/-- The U component written by `calculate_uv` (uvp.c lines 288-299):
`i in [1,imax-1]`, `j in [1,jmax]`, on fluid-fluid right edges only. -/
def calculate_uv_U (dt dx : ℚ) (imax jmax : ℕ) (U F P : Field)
    (Flags : FlagField) : Field := fun i j =>
  if 1 ≤ i ∧ i < (imax : ℤ) ∧ 1 ≤ j ∧ j ≤ (jmax : ℤ)
      ∧ isFluid (Flags i j) = true
      ∧ isNeighbourFluid (Flags i j) Direction.RIGHT = true then
    F i j - dt / dx * (P (i + 1) j - P i j)
  else U i j

/-- The V component written by `calculate_uv` (uvp.c lines 300-311):
`i in [1,imax]`, `j in [1,jmax-1]`, on fluid-fluid top edges only. -/
def calculate_uv_V (dt dy : ℚ) (imax jmax : ℕ) (V G P : Field)
    (Flags : FlagField) : Field := fun i j =>
  if 1 ≤ i ∧ i ≤ (imax : ℤ) ∧ 1 ≤ j ∧ j < (jmax : ℤ)
      ∧ isFluid (Flags i j) = true
      ∧ isNeighbourFluid (Flags i j) Direction.TOP = true then
    G i j - dt / dy * (P i (j + 1) - P i j)
  else V i j

/-- `calculate_uv` (uvp.c lines 285-312): the pair of updated velocity
fields (the two loops touch disjoint arrays, so the pairing is exact). -/
def calculate_uv (dt dx dy : ℚ) (imax jmax : ℕ) (U V F G P : Field)
    (Flags : FlagField) : Field × Field :=
  (calculate_uv_U dt dx imax jmax U F P Flags,
   calculate_uv_V dt dy imax jmax V G P Flags)

/-! ## TimestepSelector (uvp.c lines 237-269) -/

/-- The scan of uvp.c lines 250-264: running maximum of `|A i j|` over
`i in [0,imax]`, `j in [0,jmax]`, starting from 0, with the loop body
`if (fabs(A[i][j]) > m) m = fabs(A[i][j])`. -/
def absMaxScan (A : Field) (imax jmax : ℕ) : ℚ :=
  (List.range (imax + 1)).foldl
    (fun m (i : ℕ) =>
      (List.range (jmax + 1)).foldl
        (fun m (j : ℕ) =>
          if m < |A (i : ℤ) (j : ℤ)| then |A (i : ℤ) (j : ℤ)| else m)
        m)
    0

/-- The convective CFL bound `h / m` as the C double division behaves on
nonnegative operands: for `m = 0` IEEE-754 yields positive infinity (which
`fmin` then discards), modelled as the top element of `WithTop ℚ`. -/
def cflDiv (h m : ℚ) : WithTop ℚ :=
  if m = 0 then ⊤ else ((h / m : ℚ) : WithTop ℚ)

/-- The nested `fmin` of uvp.c line 267 over the extended rationals:
minimum of the diffusive bound and the two convective bounds. -/
def dtMinimum (Re Pr dx dy u_max v_max : ℚ) : WithTop ℚ :=
  min ((Re * Pr / 2 / (1 / dx ^ 2 + 1 / dy ^ 2) : ℚ) : WithTop ℚ)
    (min (cflDiv dx u_max) (cflDiv dy v_max))

/-- `calculate_dt` (uvp.c lines 237-269): `tau` times the minimum bound.
The minimum is never the top element (the diffusive bound is finite), so
the `untop'` default is unreachable. -/
def calculate_dt (Re Pr tau dx dy : ℚ) (imax jmax : ℕ) (U V : Field) : ℚ :=
  tau *
    (dtMinimum Re Pr dx dy (absMaxScan U imax jmax)
        (absMaxScan V imax jmax)).untop' 0

/-! ## TemperatureKernel (uvp.c lines 315-347) -/

/-- The per-cell temperature update expression of uvp.c lines 319-344,
reading the current contents of T. -/
def tUpdate (Re Pr dt dx dy alpha : ℚ) (T U V : Field) (i j : ℤ) : ℚ :=
  T i j
    + dt *
      (-(1 / dx) *
          (U i j * (T i j + T (i + 1) j) / 2
            - U (i - 1) j * (T (i - 1) j + T i j) / 2)
        - alpha * 1 / dx *
          (|U i j| * (T i j + T (i + 1) j) / 2
            - |U (i - 1) j| * (T (i - 1) j + T i j) / 2)
        - 1 / dy *
          (V i j * (T i j + T i (j + 1)) / 2
            - V i (j - 1) * (T i (j - 1) + T i j) / 2)
        - alpha * 1 / dy *
          (|V i j| * (T i j + T i (j + 1)) / 2
            - |V i (j - 1)| * (T i (j - 1) + T i j) / 2)
        + 1 / (Re * Pr) *
          ((T (i + 1) j - 2 * T i j + T (i - 1) j) / (dx * dx)
            + (T i (j + 1) - 2 * T i j + T i (j - 1)) / (dy * dy)))

/-- Point update of a field, modelling the C assignment `T[i][j] = x`. -/
def writeCell (A : Field) (i j : ℤ) (x : ℚ) : Field := fun a b =>
  if a = i ∧ b = j then x else A a b

/-- `calculate_T` (uvp.c lines 315-347): the in-place sweep, ascending in
`i` then `j` over `i in [0,imax]`, `j in [0,jmax]`, each cell's update
reading the partially updated field. -/
def calculate_T (Re Pr dt dx dy alpha : ℚ) (imax jmax : ℕ)
    (T U V : Field) : Field :=
  (List.range (imax + 1)).foldl
    (fun Tc (i : ℕ) =>
      (List.range (jmax + 1)).foldl
        (fun Tc (j : ℕ) =>
          writeCell Tc (i : ℤ) (j : ℤ)
            (tUpdate Re Pr dt dx dy alpha Tc U V (i : ℤ) (j : ℤ)))
        Tc)
    T

/-- The order-independent double-buffered variant of the explicit
temperature scheme: every new value is computed from the unmodified
prior-step snapshot. -/
def calculate_T_buffered (Re Pr dt dx dy alpha : ℚ) (imax jmax : ℕ)
    (T U V : Field) : Field := fun i j =>
  if 0 ≤ i ∧ i ≤ (imax : ℤ) ∧ 0 ≤ j ∧ j ≤ (jmax : ℤ) then
    tUpdate Re Pr dt dx dy alpha T U V i j
  else T i j

/-- Bounds-checked read of the extended field `[0..imax+1] x [0..jmax+1]`:
`none` signals an access outside the allocated array. -/
def readOpt (A : Field) (imax jmax : ℕ) (i j : ℤ) : Option ℚ :=
  if 0 ≤ i ∧ i ≤ (imax : ℤ) + 1 ∧ 0 ≤ j ∧ j ≤ (jmax : ℤ) + 1 then
    some (A i j)
  else none

/-- The per-cell temperature update of uvp.c lines 319-344 with every array
read bounds-checked against the extended field: `none` exactly when some
access of the C code at cell `(i,j)` is out of bounds. -/
def tUpdateChecked (Re Pr dt dx dy alpha : ℚ) (imax jmax : ℕ)
    (T U V : Field) (i j : ℤ) : Option ℚ := do
  let tij ← readOpt T imax jmax i j
  let uij ← readOpt U imax jmax i j
  let uim ← readOpt U imax jmax (i - 1) j
  let vij ← readOpt V imax jmax i j
  let vjm ← readOpt V imax jmax i (j - 1)
  let tip ← readOpt T imax jmax (i + 1) j
  let tim ← readOpt T imax jmax (i - 1) j
  let tjp ← readOpt T imax jmax i (j + 1)
  let tjm ← readOpt T imax jmax i (j - 1)
  pure (tij
    + dt *
      (-(1 / dx) * (uij * (tij + tip) / 2 - uim * (tim + tij) / 2)
        - alpha * 1 / dx * (|uij| * (tij + tip) / 2 - |uim| * (tim + tij) / 2)
        - 1 / dy * (vij * (tij + tjp) / 2 - vjm * (tjm + tij) / 2)
        - alpha * 1 / dy * (|vij| * (tij + tjp) / 2 - |vjm| * (tjm + tij) / 2)
        + 1 / (Re * Pr) *
          ((tip - 2 * tij + tim) / (dx * dx)
            + (tjp - 2 * tij + tjm) / (dy * dy))))

/-! ## Whole-state wrappers

The C functions receive pointers into one simulation state and assign only
to their designated output arrays; the wrappers make that frame explicit. -/

/-- The simulation state: the seven scalar fields, the flag field and the
shared timestep scalar. -/
structure SimState where
  U : Field
  V : Field
  F : Field
  G : Field
  P : Field
  T : Field
  RS : Field
  Flags : FlagField
  dt : ℚ

/-- `calculate_fg` on the whole state: assigns F and G only. -/
def step_fg (Re GX GY alpha beta dx dy : ℚ) (imax jmax : ℕ)
    (s : SimState) : SimState :=
  { s with
    F := (calculate_fg Re GX GY alpha beta s.dt dx dy imax jmax
        s.U s.V s.F s.G s.T s.Flags).1
    G := (calculate_fg Re GX GY alpha beta s.dt dx dy imax jmax
        s.U s.V s.F s.G s.T s.Flags).2 }

/-- `calculate_rs` on the whole state: assigns RS only. -/
def step_rs (dx dy : ℚ) (imax jmax : ℕ) (s : SimState) : SimState :=
  { s with RS := calculate_rs s.dt dx dy imax jmax s.F s.G s.RS s.Flags }

/-- `calculate_dt` on the whole state: assigns the dt scalar only. -/
def step_dt (Re Pr tau dx dy : ℚ) (imax jmax : ℕ) (s : SimState) : SimState :=
  { s with dt := calculate_dt Re Pr tau dx dy imax jmax s.U s.V }

/-- `calculate_uv` on the whole state: assigns U and V only. -/
def step_uv (dx dy : ℚ) (imax jmax : ℕ) (s : SimState) : SimState :=
  { s with
    U := (calculate_uv s.dt dx dy imax jmax s.U s.V s.F s.G s.P s.Flags).1
    V := (calculate_uv s.dt dx dy imax jmax s.U s.V s.F s.G s.P s.Flags).2 }

/-- `calculate_T` on the whole state: assigns T only. -/
def step_T (Re Pr dx dy alpha : ℚ) (imax jmax : ℕ) (s : SimState) : SimState :=
  { s with T := calculate_T Re Pr s.dt dx dy alpha imax jmax s.T s.U s.V }

/-! ## Concrete test fields -/

/-- The everywhere-zero field. -/
def zeroF : Field := fun _ _ => 0

/-- The everywhere-one field. -/
def oneF : Field := fun _ _ => 1

/-- A fluid cell with four fluid neighbours. -/
def fluidFlag : CellFlag := ⟨true, true, true, true, true⟩

/-- An obstacle cell with four obstacle neighbours. -/
def obstacleFlag : CellFlag := ⟨false, false, false, false, false⟩

/-- The all-fluid flag field. -/
def allFluid : FlagField := fun _ _ => fluidFlag

/-- The all-obstacle flag field. -/
def allObstacle : FlagField := fun _ _ => obstacleFlag

/-- A field that is 1 at the origin and 0 elsewhere. -/
def deltaF : Field := fun i j => if i = 0 ∧ j = 0 then 1 else 0

end Uvp

namespace Uvp

/-! ## Generic lemmas about running-maximum folds -/

theorem foldl_ge_init {α : Type} (g : ℚ → α → ℚ) (hg : ∀ m x, m ≤ g m x) :
    ∀ (l : List α) (m : ℚ), m ≤ l.foldl g m := by
  intro l
  induction l with
  | nil => intro m; exact le_refl m
  | cons x xs ih => intro m; exact le_trans (hg m x) (ih (g m x))

theorem foldl_ge_elem {α : Type} (g : ℚ → α → ℚ) (f : α → ℚ)
    (hg : ∀ m x, m ≤ g m x) (x : α) (hfx : ∀ m, f x ≤ g m x) :
    ∀ (l : List α) (m : ℚ), x ∈ l → f x ≤ l.foldl g m := by
  intro l
  induction l with
  | nil => intro m hx; cases hx
  | cons y ys ih =>
    intro m hx
    rcases List.mem_cons.mp hx with h | h
    · subst h
      exact le_trans (hfx m) (foldl_ge_init g hg ys (g m x))
    · exact ih (g m y) h

theorem foldl_pred_cases {α : Type} (g : ℚ → α → ℚ) (P : ℚ → Prop) :
    ∀ (l : List α) (m : ℚ), (∀ m x, x ∈ l → (g m x = m ∨ P (g m x))) →
      l.foldl g m = m ∨ P (l.foldl g m) := by
  intro l
  induction l with
  | nil => intro m _; exact Or.inl rfl
  | cons x xs ih =>
    intro m hc
    rw [List.foldl_cons]
    rcases ih (g m x) (fun m y hy => hc m y (List.mem_cons_of_mem x hy)) with h | h
    · rw [h]
      exact hc m x (List.mem_cons_self x xs)
    · exact Or.inr h

/-! ## Facts about the velocity-maximum scan -/

theorem maxStep_ge_init (A : Field) (i : ℤ) (m : ℚ) (j : ℕ) :
    m ≤ if m < |A i (j : ℤ)| then |A i (j : ℤ)| else m := by
  split
  · exact le_of_lt (by assumption)
  · exact le_refl m

theorem maxStep_ge_val (A : Field) (i : ℤ) (m : ℚ) (j : ℕ) :
    |A i (j : ℤ)| ≤ if m < |A i (j : ℤ)| then |A i (j : ℤ)| else m := by
  split
  · exact le_refl _
  · exact le_of_not_lt (by assumption)

theorem rowScan_ge_init (A : Field) (i : ℤ) (jmax : ℕ) (m : ℚ) :
    m ≤ (List.range (jmax + 1)).foldl
      (fun m (j : ℕ) => if m < |A i (j : ℤ)| then |A i (j : ℤ)| else m) m :=
  foldl_ge_init _ (maxStep_ge_init A i) _ m

theorem rowScan_ge_elem (A : Field) (i : ℤ) (jmax : ℕ) (m : ℚ) (j : ℕ)
    (hj : j ≤ jmax) :
    |A i (j : ℤ)| ≤ (List.range (jmax + 1)).foldl
      (fun m (j : ℕ) => if m < |A i (j : ℤ)| then |A i (j : ℤ)| else m) m :=
  foldl_ge_elem _ (fun j : ℕ => |A i (j : ℤ)|) (maxStep_ge_init A i) j
    (fun m => maxStep_ge_val A i m j) _ m (List.mem_range.mpr (by omega))

theorem rowScan_cases (A : Field) (i : ℤ) (jmax : ℕ) (m : ℚ) :
    (List.range (jmax + 1)).foldl
        (fun m (j : ℕ) => if m < |A i (j : ℤ)| then |A i (j : ℤ)| else m) m = m
      ∨ ∃ j : ℕ, j ≤ jmax
          ∧ (List.range (jmax + 1)).foldl
              (fun m (j : ℕ) => if m < |A i (j : ℤ)| then |A i (j : ℤ)| else m) m
            = |A i (j : ℤ)| := by
  refine foldl_pred_cases _
    (fun v => ∃ j : ℕ, j ≤ jmax ∧ v = |A i (j : ℤ)|) _ m (fun m j hj => ?_)
  by_cases h : m < |A i (j : ℤ)|
  · have hj2 := List.mem_range.mp hj
    exact Or.inr ⟨j, by omega, by rw [if_pos h]⟩
  · exact Or.inl (if_neg h)

theorem absMaxScan_nonneg (A : Field) (imax jmax : ℕ) :
    0 ≤ absMaxScan A imax jmax :=
  foldl_ge_init _ (fun m (i : ℕ) => rowScan_ge_init A (i : ℤ) jmax m) _ 0

theorem le_absMaxScan (A : Field) (imax jmax : ℕ) (i j : ℕ)
    (hi : i ≤ imax) (hj : j ≤ jmax) :
    |A (i : ℤ) (j : ℤ)| ≤ absMaxScan A imax jmax :=
  foldl_ge_elem _ (fun i : ℕ => |A (i : ℤ) (j : ℤ)|)
    (fun m (i : ℕ) => rowScan_ge_init A (i : ℤ) jmax m) i
    (fun m => rowScan_ge_elem A (i : ℤ) jmax m j hj) _ 0
    (List.mem_range.mpr (by omega))

theorem absMaxScan_eq_zero_or_attained (A : Field) (imax jmax : ℕ) :
    absMaxScan A imax jmax = 0
      ∨ ∃ i j : ℕ, i ≤ imax ∧ j ≤ jmax
          ∧ absMaxScan A imax jmax = |A (i : ℤ) (j : ℤ)| := by
  refine foldl_pred_cases _
    (fun v => ∃ i j : ℕ, i ≤ imax ∧ j ≤ jmax ∧ v = |A (i : ℤ) (j : ℤ)|) _ 0
    (fun m i hi => ?_)
  rcases rowScan_cases A (i : ℤ) jmax m with h | ⟨j, hj, h⟩
  · exact Or.inl h
  · have hi2 := List.mem_range.mp hi
    exact Or.inr ⟨i, j, by omega, hj, h⟩

end Uvp

namespace Uvp

/-- Claim C5, counterexample: the boundary-copy law quantified over ALL
indices fails: at `imax = jmax = 1` with `V = 0` everywhere and a prior `G`
equal to 1 at `(0,0)`, the cell `G[0][0]` is outside the boundary loop's
range `i in [1,imax]` and keeps its prior value 1, which differs from
`V[0][0] = 0`. -/
theorem boundary_copy_all_counterexample :
    ¬ ((∀ i : ℤ,
          (calculate_fg 1 1 1 1 1 1 1 1 1 1 zeroF zeroF zeroF deltaF zeroF
              allFluid).2 i 0
            = zeroF i 0
          ∧ (calculate_fg 1 1 1 1 1 1 1 1 1 1 zeroF zeroF zeroF deltaF zeroF
              allFluid).2 i ((1 : ℕ) : ℤ)
            = zeroF i ((1 : ℕ) : ℤ))
        ∧ (∀ j : ℤ,
          (calculate_fg 1 1 1 1 1 1 1 1 1 1 zeroF zeroF zeroF deltaF zeroF
              allFluid).1 0 j
            = zeroF 0 j
          ∧ (calculate_fg 1 1 1 1 1 1 1 1 1 1 zeroF zeroF zeroF deltaF zeroF
              allFluid).1 ((1 : ℕ) : ℤ) j
            = zeroF ((1 : ℕ) : ℤ) j)) :=
  fun h => absurd (h.1 0).1 (by decide)

/-- Claim C5 (amended): after `calculate_fg`, for all `i in [1, imax]`,
`G[i][0] = V[i][0]` and `G[i][jmax] = V[i][jmax]`, and for all
`j in [1, jmax]`, `F[0][j] = U[0][j]` and `F[imax][j] = U[imax][j]`,
regardless of the interior contents of the fields and of the flag field. -/
theorem calculate_fg_boundary_copy (Re GX GY alpha beta dt dx dy : ℚ)
    (imax jmax : ℕ) (U V F G T : Field) (Flags : FlagField) :
    (∀ i : ℤ, 1 ≤ i → i ≤ (imax : ℤ) →
      (calculate_fg Re GX GY alpha beta dt dx dy imax jmax
          U V F G T Flags).2 i 0 = V i 0
      ∧ (calculate_fg Re GX GY alpha beta dt dx dy imax jmax
          U V F G T Flags).2 i (jmax : ℤ) = V i (jmax : ℤ))
    ∧ (∀ j : ℤ, 1 ≤ j → j ≤ (jmax : ℤ) →
      (calculate_fg Re GX GY alpha beta dt dx dy imax jmax
          U V F G T Flags).1 0 j = U 0 j
      ∧ (calculate_fg Re GX GY alpha beta dt dx dy imax jmax
          U V F G T Flags).1 (imax : ℤ) j = U (imax : ℤ) j) := by
  constructor
  · intro i h1 h2
    constructor
    · simp only [calculate_fg, calculate_fg_G]
      rw [if_pos ⟨h1, h2, Or.inl trivial⟩]
    · simp only [calculate_fg, calculate_fg_G]
      rw [if_pos ⟨h1, h2, Or.inr trivial⟩]
  · intro j h1 h2
    constructor
    · simp only [calculate_fg, calculate_fg_F]
      rw [if_pos ⟨Or.inl trivial, h1, h2⟩]
    · simp only [calculate_fg, calculate_fg_F]
      rw [if_pos ⟨Or.inr trivial, h1, h2⟩]

/-- Witness for the amended claim C5 at a concrete input. -/
theorem calculate_fg_boundary_copy_witness :
    ((1 : ℤ) ≤ 1 ∧ (1 : ℤ) ≤ ((1 : ℕ) : ℤ))
    ∧ (calculate_fg 1 1 1 1 1 1 1 1 1 1 oneF oneF zeroF zeroF zeroF
        allFluid).2 1 0 = oneF 1 0 :=
  ⟨by decide,
    ((calculate_fg_boundary_copy 1 1 1 1 1 1 1 1 1 1 oneF oneF zeroF zeroF
        zeroF allFluid).1 1 (by decide) (by decide)).1⟩

/-- Claim C6: in F's iteration range, if cell `(i,j)` or its right
neighbour is an obstacle then `F[i][j] = U[i][j]` exactly; analogously for
G with the top neighbour. -/
theorem calculate_fg_obstacle_copy (Re GX GY alpha beta dt dx dy : ℚ)
    (imax jmax : ℕ) (U V F G T : Field) (Flags : FlagField) :
    (∀ i j : ℤ, 1 ≤ i → i ≤ (imax : ℤ) - 1 → 1 ≤ j → j ≤ (jmax : ℤ) →
      (isObstacle (Flags i j) = true
        ∨ isNeighbourObstacle (Flags i j) Direction.RIGHT = true) →
      (calculate_fg Re GX GY alpha beta dt dx dy imax jmax
          U V F G T Flags).1 i j = U i j)
    ∧ (∀ i j : ℤ, 1 ≤ i → i ≤ (imax : ℤ) → 1 ≤ j → j ≤ (jmax : ℤ) - 1 →
      (isObstacle (Flags i j) = true
        ∨ isNeighbourObstacle (Flags i j) Direction.TOP = true) →
      (calculate_fg Re GX GY alpha beta dt dx dy imax jmax
          U V F G T Flags).2 i j = V i j) := by
  constructor
  · intro i j h1 h2 h3 h4 hobs
    simp only [calculate_fg, calculate_fg_F]
    have hne : ¬((i = 0 ∨ i = (imax : ℤ)) ∧ 1 ≤ j ∧ j ≤ (jmax : ℤ)) := by
      rintro ⟨hi | hi, -, -⟩ <;> omega
    rw [if_neg hne, if_pos ⟨h1, by omega, h3, h4⟩, if_pos hobs]
  · intro i j h1 h2 h3 h4 hobs
    simp only [calculate_fg, calculate_fg_G]
    have hne : ¬(1 ≤ i ∧ i ≤ (imax : ℤ) ∧ (j = 0 ∨ j = (jmax : ℤ))) := by
      rintro ⟨-, -, hj | hj⟩ <;> omega
    rw [if_neg hne, if_pos ⟨h1, h2, h3, by omega⟩, if_pos hobs]

/-- Witness for claim C6 at a concrete input. -/
theorem calculate_fg_obstacle_copy_witness :
    ((1 : ℤ) ≤ 1 ∧ (1 : ℤ) ≤ ((2 : ℕ) : ℤ) - 1 ∧ (1 : ℤ) ≤ ((2 : ℕ) : ℤ)
      ∧ isObstacle (allObstacle 1 1) = true)
    ∧ (calculate_fg 1 1 1 1 1 1 1 1 2 2 oneF oneF zeroF zeroF zeroF
        allObstacle).1 1 1 = oneF 1 1 :=
  ⟨by decide,
    (calculate_fg_obstacle_copy 1 1 1 1 1 1 1 1 2 2 oneF oneF zeroF zeroF
        zeroF allObstacle).1 1 1 (by decide) (by decide) (by decide)
      (by decide) (Or.inl (by decide))⟩

/-- Claim C7: after `calculate_rs`, fluid cells in `[1,imax] x [1,jmax]`
hold the divergence source `(1/dt)((F[i][j]-F[i-1][j])/dx +
(G[i][j]-G[i][j-1])/dy)`, and non-fluid cells in that range keep their
prior value. -/
theorem calculate_rs_spec (dt dx dy : ℚ) (imax jmax : ℕ) (F G RS : Field)
    (Flags : FlagField) (hdt : dt ≠ 0) (hdx : dx ≠ 0) (hdy : dy ≠ 0) :
    ∀ i j : ℤ, 1 ≤ i → i ≤ (imax : ℤ) → 1 ≤ j → j ≤ (jmax : ℤ) →
      (isFluid (Flags i j) = true →
        calculate_rs dt dx dy imax jmax F G RS Flags i j
          = 1 / dt * ((F i j - F (i - 1) j) / dx + (G i j - G i (j - 1)) / dy))
      ∧ (¬ isFluid (Flags i j) = true →
        calculate_rs dt dx dy imax jmax F G RS Flags i j = RS i j) := by
  intro i j h1 h2 h3 h4
  constructor
  · intro hf
    simp only [calculate_rs]
    rw [if_pos ⟨h1, h2, h3, h4, hf⟩]
    ring
  · intro hnf
    simp only [calculate_rs]
    rw [if_neg]
    rintro ⟨-, -, -, -, hf⟩
    exact hnf hf

/-- Witness for claim C7 at a concrete input. -/
theorem calculate_rs_spec_witness :
    ((1 : ℚ) ≠ 0 ∧ isFluid (allFluid 1 1) = true)
    ∧ calculate_rs 1 1 1 1 1 oneF zeroF zeroF allFluid 1 1
      = 1 / 1 * ((oneF 1 1 - oneF (1 - 1) 1) / 1
          + (zeroF 1 1 - zeroF 1 (1 - 1)) / 1) :=
  ⟨⟨by norm_num, by decide⟩,
    ((calculate_rs_spec 1 1 1 1 1 oneF zeroF zeroF allFluid (by norm_num)
        (by norm_num) (by norm_num)) 1 1 (by decide) (by decide) (by decide)
      (by decide)).1 (by decide)⟩

/-- Claim C8: after `calculate_uv`, fluid-fluid right edges in the U range
get the pressure-corrected value, fluid-fluid top edges in the V range
analogously, and every other entry keeps its prior value. -/
theorem calculate_uv_spec (dt dx dy : ℚ) (imax jmax : ℕ) (U V F G P : Field)
    (Flags : FlagField) :
    ∀ i j : ℤ,
      ((1 ≤ i ∧ i ≤ (imax : ℤ) - 1 ∧ 1 ≤ j ∧ j ≤ (jmax : ℤ)
          ∧ isFluid (Flags i j) = true
          ∧ isNeighbourFluid (Flags i j) Direction.RIGHT = true) →
        (calculate_uv dt dx dy imax jmax U V F G P Flags).1 i j
          = F i j - dt / dx * (P (i + 1) j - P i j))
      ∧ (¬ (1 ≤ i ∧ i ≤ (imax : ℤ) - 1 ∧ 1 ≤ j ∧ j ≤ (jmax : ℤ)
          ∧ isFluid (Flags i j) = true
          ∧ isNeighbourFluid (Flags i j) Direction.RIGHT = true) →
        (calculate_uv dt dx dy imax jmax U V F G P Flags).1 i j = U i j)
      ∧ ((1 ≤ i ∧ i ≤ (imax : ℤ) ∧ 1 ≤ j ∧ j ≤ (jmax : ℤ) - 1
          ∧ isFluid (Flags i j) = true
          ∧ isNeighbourFluid (Flags i j) Direction.TOP = true) →
        (calculate_uv dt dx dy imax jmax U V F G P Flags).2 i j
          = G i j - dt / dy * (P i (j + 1) - P i j))
      ∧ (¬ (1 ≤ i ∧ i ≤ (imax : ℤ) ∧ 1 ≤ j ∧ j ≤ (jmax : ℤ) - 1
          ∧ isFluid (Flags i j) = true
          ∧ isNeighbourFluid (Flags i j) Direction.TOP = true) →
        (calculate_uv dt dx dy imax jmax U V F G P Flags).2 i j = V i j) := by
  intro i j
  refine ⟨?_, ?_, ?_, ?_⟩
  · rintro ⟨h1, h2, h3, h4, h5, h6⟩
    simp only [calculate_uv, calculate_uv_U]
    rw [if_pos ⟨h1, by omega, h3, h4, h5, h6⟩]
  · intro hn
    simp only [calculate_uv, calculate_uv_U]
    rw [if_neg]
    rintro ⟨h1, h2, h3, h4, h5, h6⟩
    exact hn ⟨h1, by omega, h3, h4, h5, h6⟩
  · rintro ⟨h1, h2, h3, h4, h5, h6⟩
    simp only [calculate_uv, calculate_uv_V]
    rw [if_pos ⟨h1, h2, h3, by omega, h5, h6⟩]
  · intro hn
    simp only [calculate_uv, calculate_uv_V]
    rw [if_neg]
    rintro ⟨h1, h2, h3, h4, h5, h6⟩
    exact hn ⟨h1, h2, h3, by omega, h5, h6⟩

/-- Witness for claim C8 at a concrete input. -/
theorem calculate_uv_spec_witness :
    ((1 : ℤ) ≤ 1 ∧ (1 : ℤ) ≤ ((2 : ℕ) : ℤ) - 1 ∧ (1 : ℤ) ≤ ((2 : ℕ) : ℤ)
      ∧ isFluid (allFluid 1 1) = true
      ∧ isNeighbourFluid (allFluid 1 1) Direction.RIGHT = true)
    ∧ (calculate_uv 1 1 1 2 2 oneF oneF zeroF zeroF oneF allFluid).1 1 1
      = zeroF 1 1 - 1 / 1 * (oneF (1 + 1) 1 - oneF 1 1) :=
  ⟨by decide,
    ((calculate_uv_spec 1 1 1 2 2 oneF oneF zeroF zeroF oneF allFluid)
      1 1).1 (by decide)⟩

/-- Claim C4, code-bug evidence: `calculate_T` visits cell `(0,0)` of its
declared domain `[0,imax] x [0,jmax]`, where the bounds-checked rendering
of its update expression hits an out-of-bounds read (`U[-1][0]`,
`T[-1][0]`), so the out-of-bounds branch IS reachable; `readOpt` shows the
offending index `-1` lies outside the extended field. -/
theorem calculate_T_out_of_bounds :
    tUpdateChecked 1 1 1 1 1 0 1 1 zeroF zeroF zeroF 0 0 = none
    ∧ readOpt zeroF 1 1 (-1) 0 = none := by
  exact ⟨by decide, by decide⟩

/-- Claim C9: the in-place temperature sweep is order-dependent: on a
concrete input (`imax = jmax = 1`, zero velocities, `alpha = 0`, unit
parameters, prior temperature 1 at the origin and 0 elsewhere) it differs
at cell `(0,1)` from the order-independent double-buffered explicit
scheme, because the sweep reads the already-updated value at `(0,0)`. -/
theorem calculate_T_order_dependent :
    calculate_T 1 1 1 1 1 0 1 1 deltaF zeroF zeroF 0 1
      ≠ calculate_T_buffered 1 1 1 1 1 0 1 1 deltaF zeroF zeroF 0 1 := by
  norm_num [calculate_T, calculate_T_buffered, List.range_succ, writeCell,
    tUpdate, deltaF, zeroF]

/-- Claim C10: each operation mutates only its designated outputs: on the
whole simulation state, `calculate_fg` leaves U, V, P, T, RS, Flags, dt
unchanged; `calculate_rs` leaves everything but RS unchanged;
`calculate_uv` leaves F, G, P, T, RS, Flags, dt unchanged; `calculate_T`
leaves everything but T unchanged; `calculate_dt` leaves every field
unchanged; in particular no operation writes the cell-flag field. -/
theorem kernels_frame (Re Pr GX GY alpha beta tau dx dy : ℚ)
    (imax jmax : ℕ) (s : SimState) :
    ((step_fg Re GX GY alpha beta dx dy imax jmax s).U = s.U
      ∧ (step_fg Re GX GY alpha beta dx dy imax jmax s).V = s.V
      ∧ (step_fg Re GX GY alpha beta dx dy imax jmax s).P = s.P
      ∧ (step_fg Re GX GY alpha beta dx dy imax jmax s).T = s.T
      ∧ (step_fg Re GX GY alpha beta dx dy imax jmax s).RS = s.RS
      ∧ (step_fg Re GX GY alpha beta dx dy imax jmax s).Flags = s.Flags
      ∧ (step_fg Re GX GY alpha beta dx dy imax jmax s).dt = s.dt)
    ∧ ((step_rs dx dy imax jmax s).U = s.U
      ∧ (step_rs dx dy imax jmax s).V = s.V
      ∧ (step_rs dx dy imax jmax s).F = s.F
      ∧ (step_rs dx dy imax jmax s).G = s.G
      ∧ (step_rs dx dy imax jmax s).P = s.P
      ∧ (step_rs dx dy imax jmax s).T = s.T
      ∧ (step_rs dx dy imax jmax s).Flags = s.Flags
      ∧ (step_rs dx dy imax jmax s).dt = s.dt)
    ∧ ((step_uv dx dy imax jmax s).F = s.F
      ∧ (step_uv dx dy imax jmax s).G = s.G
      ∧ (step_uv dx dy imax jmax s).P = s.P
      ∧ (step_uv dx dy imax jmax s).T = s.T
      ∧ (step_uv dx dy imax jmax s).RS = s.RS
      ∧ (step_uv dx dy imax jmax s).Flags = s.Flags
      ∧ (step_uv dx dy imax jmax s).dt = s.dt)
    ∧ ((step_T Re Pr dx dy alpha imax jmax s).U = s.U
      ∧ (step_T Re Pr dx dy alpha imax jmax s).V = s.V
      ∧ (step_T Re Pr dx dy alpha imax jmax s).F = s.F
      ∧ (step_T Re Pr dx dy alpha imax jmax s).G = s.G
      ∧ (step_T Re Pr dx dy alpha imax jmax s).P = s.P
      ∧ (step_T Re Pr dx dy alpha imax jmax s).RS = s.RS
      ∧ (step_T Re Pr dx dy alpha imax jmax s).Flags = s.Flags
      ∧ (step_T Re Pr dx dy alpha imax jmax s).dt = s.dt)
    ∧ ((step_dt Re Pr tau dx dy imax jmax s).U = s.U
      ∧ (step_dt Re Pr tau dx dy imax jmax s).V = s.V
      ∧ (step_dt Re Pr tau dx dy imax jmax s).F = s.F
      ∧ (step_dt Re Pr tau dx dy imax jmax s).G = s.G
      ∧ (step_dt Re Pr tau dx dy imax jmax s).P = s.P
      ∧ (step_dt Re Pr tau dx dy imax jmax s).T = s.T
      ∧ (step_dt Re Pr tau dx dy imax jmax s).RS = s.RS
      ∧ (step_dt Re Pr tau dx dy imax jmax s).Flags = s.Flags) :=
  ⟨⟨rfl, rfl, rfl, rfl, rfl, rfl, rfl⟩,
   ⟨rfl, rfl, rfl, rfl, rfl, rfl, rfl, rfl⟩,
   ⟨rfl, rfl, rfl, rfl, rfl, rfl, rfl⟩,
   ⟨rfl, rfl, rfl, rfl, rfl, rfl, rfl, rfl⟩,
   ⟨rfl, rfl, rfl, rfl, rfl, rfl, rfl, rfl⟩⟩

end Uvp

namespace Uvp

/-- Claim C1: on every edge of the iteration ranges whose cell and relevant
neighbour are fluid, `calculate_fg` sets F (resp. G) to the explicit Euler
step `U + dt*(1/Re*(d2u/dx2 + d2u/dy2) - d(u^2)/dx - d(uv)/dy +
(1 - beta*T)*GX)` (resp. the analogous formula with GY), built from the
discrete stencil operators; quantified over all input fields and
`Re != 0`. -/
theorem calculate_fg_fluid_formula (Re GX GY alpha beta dt dx dy : ℚ)
    (imax jmax : ℕ) (U V F G T : Field) (Flags : FlagField) (hRe : Re ≠ 0) :
    (∀ i j : ℤ, 1 ≤ i → i ≤ (imax : ℤ) - 1 → 1 ≤ j → j ≤ (jmax : ℤ) →
      isFluid (Flags i j) = true →
      isNeighbourFluid (Flags i j) Direction.RIGHT = true →
      (calculate_fg Re GX GY alpha beta dt dx dy imax jmax
          U V F G T Flags).1 i j
        = U i j
          + dt *
            (1 / Re * (secondDerivativeDx U i j dx + secondDerivativeDy U i j dy)
              - squareDerivativeDx U i j dx alpha
              - productDerivativeDy U V i j dy alpha
              + (1 - beta * T i j) * GX))
    ∧ (∀ i j : ℤ, 1 ≤ i → i ≤ (imax : ℤ) → 1 ≤ j → j ≤ (jmax : ℤ) - 1 →
      isFluid (Flags i j) = true →
      isNeighbourFluid (Flags i j) Direction.TOP = true →
      (calculate_fg Re GX GY alpha beta dt dx dy imax jmax
          U V F G T Flags).2 i j
        = V i j
          + dt *
            (1 / Re * (secondDerivativeDx V i j dx + secondDerivativeDy V i j dy)
              - productDerivativeDx U V i j dx alpha
              - squareDerivativeDy V i j dy alpha
              + (1 - beta * T i j) * GY)) := by
  constructor
  · intro i j h1 h2 h3 h4 hf hnb
    have hsf : (Flags i j).selfFluid = true := hf
    have hrf : (Flags i j).rightFluid = true := hnb
    have hne : ¬((i = 0 ∨ i = (imax : ℤ)) ∧ 1 ≤ j ∧ j ≤ (jmax : ℤ)) := by
      rintro ⟨hi | hi, -, -⟩ <;> omega
    have hnobs : ¬(isObstacle (Flags i j) = true
        ∨ isNeighbourObstacle (Flags i j) Direction.RIGHT = true) := by
      rintro (h | h)
      · simp [isObstacle, hsf] at h
      · simp [isNeighbourObstacle, isNeighbourFluid, hrf] at h
    simp only [calculate_fg, calculate_fg_F]
    rw [if_neg hne, if_pos ⟨h1, by omega, h3, h4⟩, if_neg hnobs]
    rfl
  · intro i j h1 h2 h3 h4 hf hnb
    have hsf : (Flags i j).selfFluid = true := hf
    have htf : (Flags i j).topFluid = true := hnb
    have hne : ¬(1 ≤ i ∧ i ≤ (imax : ℤ) ∧ (j = 0 ∨ j = (jmax : ℤ))) := by
      rintro ⟨-, -, hj | hj⟩ <;> omega
    have hnobs : ¬(isObstacle (Flags i j) = true
        ∨ isNeighbourObstacle (Flags i j) Direction.TOP = true) := by
      rintro (h | h)
      · simp [isObstacle, hsf] at h
      · simp [isNeighbourObstacle, isNeighbourFluid, htf] at h
    simp only [calculate_fg, calculate_fg_G]
    rw [if_neg hne, if_pos ⟨h1, h2, h3, by omega⟩, if_neg hnobs]
    rfl

/-- Witness for claim C1 at a concrete input. -/
theorem calculate_fg_fluid_formula_witness :
    ((1 : ℚ) ≠ 0 ∧ isFluid (allFluid 1 1) = true)
    ∧ (calculate_fg 1 1 1 1 1 1 1 1 2 2 oneF oneF zeroF zeroF zeroF
        allFluid).1 1 1
      = oneF 1 1
        + 1 *
          (1 / 1 * (secondDerivativeDx oneF 1 1 1 + secondDerivativeDy oneF 1 1 1)
            - squareDerivativeDx oneF 1 1 1 1
            - productDerivativeDy oneF oneF 1 1 1 1
            + (1 - 1 * zeroF 1 1) * 1) :=
  ⟨⟨by norm_num, by decide⟩,
    (calculate_fg_fluid_formula 1 1 1 1 1 1 1 1 2 2 oneF oneF zeroF zeroF
        zeroF allFluid (by norm_num)).1 1 1 (by decide) (by decide)
      (by decide) (by decide) (by decide) (by decide)⟩

/-- Claim C2: after `calculate_dt`, dt equals tau times the minimum of the
diffusive bound and the two convective bounds, where `u_max`, `v_max` are
the maxima of the absolute velocities over the scanned range
`[0,imax] x [0,jmax]`; consequently, for nonzero maxima and positive
parameters, dt exceeds none of the three scaled bounds. -/
theorem calculate_dt_cfl (Re Pr tau dx dy : ℚ) (imax jmax : ℕ)
    (U V : Field) (hdx : 0 < dx) (hdy : 0 < dy) (hRe : 0 < Re)
    (hPr : 0 < Pr) (htau : 0 < tau)
    (hu : absMaxScan U imax jmax ≠ 0) (hv : absMaxScan V imax jmax ≠ 0) :
    calculate_dt Re Pr tau dx dy imax jmax U V
      = tau * min (Re * Pr / 2 / (1 / dx ^ 2 + 1 / dy ^ 2))
          (min (dx / absMaxScan U imax jmax) (dy / absMaxScan V imax jmax))
    ∧ (∀ i j : ℕ, i ≤ imax → j ≤ jmax →
        |U (i : ℤ) (j : ℤ)| ≤ absMaxScan U imax jmax)
    ∧ (∃ i j : ℕ, i ≤ imax ∧ j ≤ jmax
        ∧ absMaxScan U imax jmax = |U (i : ℤ) (j : ℤ)|)
    ∧ (∀ i j : ℕ, i ≤ imax → j ≤ jmax →
        |V (i : ℤ) (j : ℤ)| ≤ absMaxScan V imax jmax)
    ∧ (∃ i j : ℕ, i ≤ imax ∧ j ≤ jmax
        ∧ absMaxScan V imax jmax = |V (i : ℤ) (j : ℤ)|)
    ∧ calculate_dt Re Pr tau dx dy imax jmax U V
        ≤ tau * dx / absMaxScan U imax jmax
    ∧ calculate_dt Re Pr tau dx dy imax jmax U V
        ≤ tau * dy / absMaxScan V imax jmax
    ∧ calculate_dt Re Pr tau dx dy imax jmax U V
        ≤ tau * Re * Pr / 2 / (1 / dx ^ 2 + 1 / dy ^ 2) := by
  have hd : calculate_dt Re Pr tau dx dy imax jmax U V
      = tau * min (Re * Pr / 2 / (1 / dx ^ 2 + 1 / dy ^ 2))
          (min (dx / absMaxScan U imax jmax)
            (dy / absMaxScan V imax jmax)) := by
    simp only [calculate_dt, dtMinimum, cflDiv]
    rw [if_neg hu, if_neg hv, ← WithTop.coe_min, ← WithTop.coe_min,
      WithTop.untop'_coe]
  refine ⟨hd, fun i j hi hj => le_absMaxScan U imax jmax i j hi hj, ?_,
    fun i j hi hj => le_absMaxScan V imax jmax i j hi hj, ?_, ?_, ?_, ?_⟩
  · rcases absMaxScan_eq_zero_or_attained U imax jmax with h | h
    · exact absurd h hu
    · exact h
  · rcases absMaxScan_eq_zero_or_attained V imax jmax with h | h
    · exact absurd h hv
    · exact h
  · have h2 : tau * dx / absMaxScan U imax jmax
        = tau * (dx / absMaxScan U imax jmax) := by ring
    rw [hd, h2]
    exact mul_le_mul_of_nonneg_left
      (le_trans (min_le_right _ _) (min_le_left _ _)) htau.le
  · have h2 : tau * dy / absMaxScan V imax jmax
        = tau * (dy / absMaxScan V imax jmax) := by ring
    rw [hd, h2]
    exact mul_le_mul_of_nonneg_left
      (le_trans (min_le_right _ _) (min_le_right _ _)) htau.le
  · have heq : tau * Re * Pr / 2 / (1 / dx ^ 2 + 1 / dy ^ 2)
        = tau * (Re * Pr / 2 / (1 / dx ^ 2 + 1 / dy ^ 2)) := by
      ring
    rw [hd, heq]
    exact mul_le_mul_of_nonneg_left (min_le_left _ _) htau.le

/-- Witness for claim C2 at a concrete input. -/
theorem calculate_dt_cfl_witness :
    (0 < (1 : ℚ) ∧ absMaxScan oneF 1 1 ≠ 0)
    ∧ calculate_dt 1 1 1 1 1 1 1 oneF oneF
      ≤ 1 * 1 / absMaxScan oneF 1 1 :=
  ⟨⟨by norm_num, by decide⟩,
    (calculate_dt_cfl 1 1 1 1 1 1 1 oneF oneF (by norm_num) (by norm_num)
        (by norm_num) (by norm_num) (by norm_num) (by decide)
        (by decide)).2.2.2.2.2.1⟩

/-- Claim C3: when the scanned maximum of U is zero and that of V is one,
`calculate_dt` treats the undefined convective-x bound as positive infinity
and excludes it: the result equals `tau * min(diffusive bound, dy/v_max)`
and is nonzero; moreover the minimum is never the top element, so the
guarded division's error branch is unreachable for every input. -/
theorem calculate_dt_zero_max (Re Pr tau dx dy : ℚ) (imax jmax : ℕ)
    (U V : Field) (hdx : 0 < dx) (hdy : 0 < dy) (hRe : 0 < Re)
    (hPr : 0 < Pr) (htau : 0 < tau)
    (hu : absMaxScan U imax jmax = 0) (hv : absMaxScan V imax jmax = 1) :
    calculate_dt Re Pr tau dx dy imax jmax U V
      = tau * min (Re * Pr / 2 / (1 / dx ^ 2 + 1 / dy ^ 2)) (dy / 1)
    ∧ calculate_dt Re Pr tau dx dy imax jmax U V ≠ 0
    ∧ (∀ um vm : ℚ, dtMinimum Re Pr dx dy um vm ≠ ⊤) := by
  have hd : calculate_dt Re Pr tau dx dy imax jmax U V
      = tau * min (Re * Pr / 2 / (1 / dx ^ 2 + 1 / dy ^ 2)) (dy / 1) := by
    simp only [calculate_dt, dtMinimum, cflDiv, hu, hv]
    rw [if_pos trivial, if_neg one_ne_zero, min_eq_right le_top,
      ← WithTop.coe_min, WithTop.untop'_coe]
  refine ⟨hd, ?_, ?_⟩
  · have hdiff : 0 < Re * Pr / 2 / (1 / dx ^ 2 + 1 / dy ^ 2) := by positivity
    have hdy1 : 0 < dy / 1 := by simpa using hdy
    rw [hd]
    exact (mul_pos htau (lt_min hdiff hdy1)).ne'
  · intro um vm
    exact (lt_of_le_of_lt (min_le_left _ _) (WithTop.coe_lt_top _)).ne

/-- Witness for claim C3 at a concrete input. -/
theorem calculate_dt_zero_max_witness :
    (0 < (1 : ℚ) ∧ absMaxScan zeroF 1 1 = 0 ∧ absMaxScan oneF 1 1 = 1)
    ∧ calculate_dt 1 1 1 1 1 1 1 zeroF oneF ≠ 0 :=
  ⟨⟨by norm_num, by decide, by decide⟩,
    (calculate_dt_zero_max 1 1 1 1 1 1 1 zeroF oneF (by norm_num)
        (by norm_num) (by norm_num) (by norm_num) (by norm_num) (by decide)
        (by decide)).2.1⟩

end Uvp
